import Mathlib

/-!
Verification of the workos-mcp-gateway core: a shallow embedding of the
organization-mapping resolver (`src/mapping.ts`), the mapping-file loader,
and the per-request gateway pipeline (`gateway.ts`: mapping-presence gate,
bearer-token middleware, proxy path rewrite and header substitution),
together with theorems settling the specified properties.
-/

namespace Gateway

/-! ## Mapping model (`src/mapping.ts`) -/

/-- One entry of the mapping table: `{ partition: string, apiKey?: string }`.
`apiKey = none` models an absent `apiKey` field. -/
structure MappingEntry where
  partition : String
  apiKey : Option String
deriving Repr, DecidableEq

/-- The mapping table: a JavaScript object keyed by organization id, modelled
as an association list looked up with `List.lookup` (first match, matching
post-parse object semantics where keys are unique). -/
abbrev MappingTable := List (String × MappingEntry)

/-- The `MapperConfig` of `src/mapping.ts`: the default credential and the
`strictApiKeys` flag (ApiKeyPolicy: `true` = RequireExplicit,
`false` = AllowFallback). -/
structure MapperConfig where
  ragieApiKey : String
  strictApiKeys : Bool
deriving Repr, DecidableEq

/-- Errors thrown by the mappers (`throw new Error(...)` sites). -/
inductive MapperError where
  | organizationNotFound (orgId : String)
  | missingApiKey (orgId : String)
deriving Repr, DecidableEq

instance instDecEqExcept {ε α : Type} [DecidableEq ε] [DecidableEq α] :
    DecidableEq (Except ε α) := fun a b =>
  match a, b with
  | .ok x, .ok y =>
    if h : x = y then .isTrue (by rw [h]) else .isFalse (by simp [h])
  | .error x, .error y =>
    if h : x = y then .isTrue (by rw [h]) else .isFalse (by simp [h])
  | .ok _, .error _ => .isFalse (by simp)
  | .error _, .ok _ => .isFalse (by simp)

/-- JavaScript truthiness test used by `if (!entry.apiKey)`: an optional
string field is falsy when absent (`undefined`) or the empty string. -/
def jsStrFalsy : Option String → Bool
  | none => true
  | some s => s = ""

/-- Model of `organizationId.toLowerCase()`: character-wise lowercasing of the
string. -/
def jsToLowerCase (s : String) : String :=
  String.mk (s.data.map Char.toLower)

/-- The `DefaultMapper` (Permissive ResolverPolicy): config plus table. -/
structure DefaultMapper where
  config : MapperConfig
  mapping : MappingTable
deriving DecidableEq

/-- Model of `DefaultMapper.hasMapping`: always `true`. -/
def DefaultMapper.hasMapping (_m : DefaultMapper) (_organizationId : String) : Bool :=
  true

/-- Model of `DefaultMapper.getPartition`: the entry's partition when present, else the
lowercased organization id. -/
def DefaultMapper.getPartition (m : DefaultMapper) (organizationId : String) : String :=
  match m.mapping.lookup organizationId with
  | some entry => entry.partition
  | none => jsToLowerCase organizationId

/-- Model of `DefaultMapper.getApiKey`: with no entry, the default credential; with an
entry, under `strictApiKeys` a falsy `apiKey` throws `MissingApiKey` and a
truthy one is returned, otherwise `entry.apiKey ?? config.ragieApiKey`
(nullish coalescing: the empty string is NOT replaced). -/
def DefaultMapper.getApiKey (m : DefaultMapper) (organizationId : String) :
    Except MapperError String :=
  match m.mapping.lookup organizationId with
  | none => .ok m.config.ragieApiKey
  | some entry =>
    if m.config.strictApiKeys then
      if jsStrFalsy entry.apiKey then .error (.missingApiKey organizationId)
      else .ok (entry.apiKey.getD "")
    else
      .ok (entry.apiKey.getD m.config.ragieApiKey)

/-- The `StrictMapper` (Strict ResolverPolicy): config plus table. -/
structure StrictMapper where
  config : MapperConfig
  mapping : MappingTable
deriving DecidableEq

/-- Model of `StrictMapper.hasMapping`: true iff the organization id is a key of the
table (`this.mapping[organizationId] !== undefined`). -/
def StrictMapper.hasMapping (m : StrictMapper) (organizationId : String) : Bool :=
  (m.mapping.lookup organizationId).isSome

/-- Model of `StrictMapper.getPartition`: the entry's partition when present, else
throws `OrganizationNotFound`. -/
def StrictMapper.getPartition (m : StrictMapper) (organizationId : String) :
    Except MapperError String :=
  match m.mapping.lookup organizationId with
  | some entry => .ok entry.partition
  | none => .error (.organizationNotFound organizationId)

/-- Model of `StrictMapper.getApiKey`: no entry throws `OrganizationNotFound`; with an
entry, the same credential logic as `DefaultMapper.getApiKey`. -/
def StrictMapper.getApiKey (m : StrictMapper) (organizationId : String) :
    Except MapperError String :=
  match m.mapping.lookup organizationId with
  | none => .error (.organizationNotFound organizationId)
  | some entry =>
    if m.config.strictApiKeys then
      if jsStrFalsy entry.apiKey then .error (.missingApiKey organizationId)
      else .ok (entry.apiKey.getD "")
    else
      .ok (entry.apiKey.getD m.config.ragieApiKey)

/-- The `Mapper` interface: the implementation selected at startup. -/
inductive Mapper where
  | defaultM (m : DefaultMapper)
  | strictM (m : StrictMapper)
deriving DecidableEq

/-- Dispatch of `hasMapping` through the interface. -/
def Mapper.hasMapping : Mapper → String → Bool
  | .defaultM m, o => m.hasMapping o
  | .strictM m, o => m.hasMapping o

/-- Dispatch of `getPartition`; the permissive mapper never throws. -/
def Mapper.getPartition : Mapper → String → Except MapperError String
  | .defaultM m, o => .ok (m.getPartition o)
  | .strictM m, o => m.getPartition o

/-- Dispatch of `getApiKey`. -/
def Mapper.getApiKey : Mapper → String → Except MapperError String
  | .defaultM m, o => m.getApiKey o
  | .strictM m, o => m.getApiKey o

/-- The underlying table of either mapper. -/
def Mapper.table : Mapper → MappingTable
  | .defaultM m => m.mapping
  | .strictM m => m.mapping

/-! ## Mapping-file loading and schema validation (`src/mapping.ts`) -/

/-- A parsed JSON value, as produced by `JSON.parse` on the mapping file. -/
inductive Json where
  | str (s : String)
  | num (n : Int)
  | boolean (b : Bool)
  | null
  | arr (elems : List Json)
  | obj (fields : List (String × Json))

/-- Zod check `z.string()` applied to one field value. -/
def zodString : Json → Except String String
  | .str s => .ok s
  | _ => .error "Expected string"

/-- One entry validated against
`z.object( partition : z.string(), apiKey : z.string().optional() )`, with
`requireApiKey` selecting `StrictApiKeyMappingSchema` (where `apiKey` is
`z.string()`, required). The error message is qualified by the entry's key,
mirroring `e.path.join(".")`. -/
def zodEntry (requireApiKey : Bool) (key : String) : Json → Except String MappingEntry
  | .obj fields =>
    match fields.lookup "partition" with
    | none => .error (key ++ ".partition: Required")
    | some pv =>
      match zodString pv with
      | .error e => .error (key ++ ".partition: " ++ e)
      | .ok partition =>
        match fields.lookup "apiKey" with
        | none =>
          if requireApiKey then .error (key ++ ".apiKey: Required")
          else .ok { partition := partition, apiKey := none }
        | some av =>
          match zodString av with
          | .error e => .error (key ++ ".apiKey: " ++ e)
          | .ok apiKey => .ok { partition := partition, apiKey := some apiKey }
  | _ => .error (key ++ ": Expected object")

/-- The record body of `MappingSchema` / `StrictApiKeyMappingSchema`:
every entry of the top-level object must validate. -/
def zodRecord (requireApiKey : Bool) :
    List (String × Json) → Except String MappingTable
  | [] => .ok []
  | (key, v) :: rest =>
    match zodEntry requireApiKey key v with
    | .error e => .error e
    | .ok entry =>
      match zodRecord requireApiKey rest with
      | .error e => .error e
      | .ok tail => .ok ((key, entry) :: tail)

/-- Model of `MappingSchema.parse` / `StrictApiKeyMappingSchema.parse` on the parsed
file: the top level must be an object, whose entries all validate. -/
def zodParseMapping (requireApiKey : Bool) : Json → Except String MappingTable
  | .obj fields => zodRecord requireApiKey fields
  | _ => .error "Expected object"

/-- The configuration fields consumed by `loadMapper` and the gateway
(`Config` in `src/config.ts`). -/
structure Config where
  baseUrl : String
  ragieApiKey : String
  ragieBaseUrl : String
  strictApiKeys : Bool
  strictMapping : Bool
  mappingFile : Option String
deriving DecidableEq

/-- The `MapperConfig` slice of a `Config`. -/
def Config.mapperConfig (c : Config) : MapperConfig :=
  { ragieApiKey := c.ragieApiKey, strictApiKeys := c.strictApiKeys }

/-- Failures of `loadMapper`: `MappingIOError` (file unreadable or not JSON),
`MappingValidationError` (zod schema failure, re-thrown with field paths), or
the assertion that strict mapping requires a mapping file. -/
inductive LoadError where
  | ioError (msg : String)
  | validationError (msg : String)
  | assertionError (msg : String)
deriving Repr, DecidableEq

/-- The result of reading `config.mappingFile`: `readJsonFile` either throws
(unreadable or unparsable) or yields a parsed JSON value. -/
abbrev FileRead := Except String Json

/-- Model of `DefaultMapper.load`: read, validate under the policy-selected schema,
construct the mapper. -/
def DefaultMapper.load (config : MapperConfig) (file : FileRead) :
    Except LoadError DefaultMapper :=
  match file with
  | .error e => .error (.ioError e)
  | .ok json =>
    match zodParseMapping config.strictApiKeys json with
    | .error e => .error (.validationError e)
    | .ok mapping => .ok { config := config, mapping := mapping }

/-- Model of `StrictMapper.load`: identical validation, strict mapper. -/
def StrictMapper.load (config : MapperConfig) (file : FileRead) :
    Except LoadError StrictMapper :=
  match file with
  | .error e => .error (.ioError e)
  | .ok json =>
    match zodParseMapping config.strictApiKeys json with
    | .error e => .error (.validationError e)
    | .ok mapping => .ok { config := config, mapping := mapping }

/-- Model of `loadMapper`: strict mapping requires a mapping file and uses
`StrictMapper.load`; otherwise a configured mapping file uses
`DefaultMapper.load`; otherwise an empty permissive mapper. `file` stands for
the outcome of reading `config.mappingFile` when one is configured. -/
def loadMapper (config : Config) (file : FileRead) : Except LoadError Mapper :=
  if config.strictMapping then
    match config.mappingFile with
    | none => .error (.assertionError "mappingFile is required when strictMapping is true")
    | some _ => (StrictMapper.load config.mapperConfig file).map .strictM
  else
    match config.mappingFile with
    | some _ => (DefaultMapper.load config.mapperConfig file).map .defaultM
    | none => .ok (.defaultM { config := config.mapperConfig, mapping := [] })

/-- A started gateway process: startup (`src/index.ts`) constructs the mapper
via `loadMapper` and only then starts accepting connections. -/
structure RunningGateway where
  config : Config
  mapper : Mapper

/-- Process startup (`main` in `src/index.ts`): `loadMapper` runs first and
any failure exits the process before `gateway.start()` — a load failure never
yields a running gateway. -/
def mainStartup (config : Config) (file : FileRead) :
    Except LoadError RunningGateway :=
  match loadMapper config file with
  | .error e => .error e
  | .ok mapper => .ok { config := config, mapper := mapper }

/-! ## Per-request gateway pipeline (`gateway.ts`) -/

/-- An inbound HTTP request, reduced to what the gateway inspects: method,
path (as slash-separated segments), and the `Authorization` header. -/
structure HttpRequest where
  method : String
  pathSegments : List String
  authorizationHeader : Option String
deriving DecidableEq

/-- Claims of a verified JWT as seen by the middleware; `sub` is optional in
a JWT, so `payload.sub` may be absent. -/
structure JwtPayload where
  sub : Option String
deriving DecidableEq

/-- The external collaborators of the authentication pipeline:
`verify t` models `jwtVerify(t, workosJwks, issuer)` — `some payload` when
signature, expiry and issuer checks pass, `none` when `jwtVerify` throws —
and `memberships u o` models the length of `data` in the response of
`workos.userManagement.listOrganizationMemberships` for user `u`,
organization `o`, statuses `[active]`. -/
structure AuthEnv where
  verify : String → Option JwtPayload
  memberships : String → String → Nat

/-- How many times each external collaborator was called while handling one
request: `jwtVerify` (the signing-key path) and the membership query. -/
structure CallTrace where
  verifyCalls : Nat
  membershipCalls : Nat
deriving Repr, DecidableEq

/-- A request that the proxy sends upstream: the rewritten path and the
substituted `Authorization` header. -/
structure UpstreamRequest where
  path : String
  authorizationHeader : String
deriving Repr, DecidableEq

/-- A locally produced HTTP response: status, optional `WWW-Authenticate`
header, and a JSON body of shape `( error : message )`. -/
structure LocalResponse where
  status : Nat
  wwwAuthenticate : Option String
  errorMessage : String
deriving Repr, DecidableEq

/-- The observable outcome of dispatching one request. -/
inductive Outcome where
  /-- A middleware answered locally (404 gate or 401 auth failure). -/
  | response (r : LocalResponse)
  /-- The proxy forwarded the request upstream. -/
  | forward (u : UpstreamRequest)
  /-- An uncaught `assert` fired inside the async middleware. -/
  | assertionFailure (msg : String)
  /-- `getPartition`/`getApiKey` threw inside the proxy hooks. -/
  | proxyError (e : MapperError)
  /-- No registered route matched: Express's default 404 handler. -/
  | expressDefault404
  /-- One of the other registered routes (`GET /welcome`, the two
  `/.well-known` documents) handled the request. -/
  | otherRoute
deriving Repr, DecidableEq

/-- The `WWW-Authenticate` challenge built in the `Gateway` constructor: the
three `key="value"` parts joined by `", "`. -/
def wwwAuthenticateHeader (config : Config) : String :=
  "Bearer error=\"unauthorized\"" ++ ", " ++
    "error_description=\"Authorization needed\"" ++ ", " ++
    "resource_metadata=\"" ++ config.baseUrl ++ "/.well-known/oauth-protected-resource\""

/-- Characters matched by `.` in a JavaScript regex without the `s` flag:
everything except line terminators. -/
def jsRegexDotChar (c : Char) : Bool :=
  c ≠ '\n' && c ≠ '\r' && c ≠ '\u2028' && c ≠ '\u2029'

/-- The character sequence of the literal `Bearer ` prefix of the extraction
regex. -/
def bearerMarker : List Char := "Bearer ".data

/-- Model of the extraction `req.headers.authorization?.match(...)?.[1]` with the regex anchored `Bearer (.+)`: the token is
the remainder after the case-sensitive `Bearer ` prefix, provided it is
nonempty and free of line terminators (which `.` cannot match). -/
def extractBearerToken : Option String → Option String
  | none => none
  | some header =>
    if bearerMarker.isPrefixOf header.data then
      let rest := header.data.drop bearerMarker.length
      if rest.isEmpty then none
      else if rest.all jsRegexDotChar then some (String.mk rest)
      else none
    else none

/-- Model of `ensureMappingMiddleware`: with no mapping, answer
404 `( error : Organization not found )` and stop; otherwise `next()`. -/
def ensureMapping (mapper : Mapper) (organizationId : String) : Option LocalResponse :=
  if mapper.hasMapping organizationId then none
  else some { status := 404, wwwAuthenticate := none,
              errorMessage := "Organization not found" }

/-- The proxy step reached after `next()` from the bearer middleware:
`pathRewrite` computes `/mcp/<partition>/` from `getPartition`, then the
`proxyReq` hook overwrites `Authorization` with `Bearer <getApiKey>`; a
throw from either mapper call surfaces as a proxy error. -/
def proxyStep (mapper : Mapper) (organizationId : String) : Outcome :=
  match mapper.getPartition organizationId with
  | .error e => .proxyError e
  | .ok partition =>
    match mapper.getApiKey organizationId with
    | .error e => .proxyError e
    | .ok apiKey =>
      .forward { path := "/mcp/" ++ partition ++ "/",
                 authorizationHeader := "Bearer " ++ apiKey }

/-- Model of `bearerTokenMiddleware` followed by the proxy middleware, with the call
trace of the external collaborators. Token extraction failure answers 401
before any collaborator call; a `jwtVerify` throw answers 401; a verified
token whose `sub` is JavaScript-falsy — absent or the empty string, exactly
the values rejected by Node's `assert(userId, ...)` — trips the uncaught
assertion; an empty membership list answers 401; otherwise the proxy step
runs. -/
def bearerTokenAndProxy (config : Config) (mapper : Mapper) (env : AuthEnv)
    (organizationId : String) (authorizationHeader : Option String) :
    Outcome × CallTrace :=
  match extractBearerToken authorizationHeader with
  | none =>
    (.response { status := 401, wwwAuthenticate := some (wwwAuthenticateHeader config),
                 errorMessage := "No token provided." },
     { verifyCalls := 0, membershipCalls := 0 })
  | some token =>
    match env.verify token with
    | none =>
      (.response { status := 401, wwwAuthenticate := some (wwwAuthenticateHeader config),
                   errorMessage := "Invalid bearer token." },
       { verifyCalls := 1, membershipCalls := 0 })
    | some payload =>
      match payload.sub with
      | none =>
        (.assertionFailure "User ID is required in the JWT payload",
         { verifyCalls := 1, membershipCalls := 0 })
      | some userId =>
        if userId = "" then
          (.assertionFailure "User ID is required in the JWT payload",
           { verifyCalls := 1, membershipCalls := 0 })
        else if env.memberships userId organizationId = 0 then
          (.response { status := 401, wwwAuthenticate := some (wwwAuthenticateHeader config),
                       errorMessage := "Invalid bearer token." },
           { verifyCalls := 1, membershipCalls := 1 })
        else
          (proxyStep mapper organizationId,
           { verifyCalls := 1, membershipCalls := 1 })

/-- The middleware chain registered on `POST /:organizationId/mcp`:
mapping-presence gate first, then authentication and proxying. -/
def mcpPipeline (config : Config) (mapper : Mapper) (env : AuthEnv)
    (organizationId : String) (authorizationHeader : Option String) :
    Outcome × CallTrace :=
  match ensureMapping mapper organizationId with
  | some r => (.response r, { verifyCalls := 0, membershipCalls := 0 })
  | none => bearerTokenAndProxy config mapper env organizationId authorizationHeader

/-- Express route matching for `app.post("/:organizationId/mcp", ...)`:
the method must be `POST` and the path exactly two segments, a nonempty
organization id followed by the literal `mcp`. Paths with further segments
(`/org/mcp/tool`) do not match this pattern. -/
def matchMcpRoute (req : HttpRequest) : Option String :=
  if req.method = "POST" then
    match req.pathSegments with
    | [organizationId, seg] =>
      if seg = "mcp" && organizationId ≠ "" then some organizationId else none
    | _ => none
  else none

/-- The other routes registered in `initializeApp` (`GET /welcome` and the
two `/.well-known` discovery documents). -/
def matchOtherRoute (req : HttpRequest) : Bool :=
  req.method = "GET" &&
    (req.pathSegments = ["welcome"] ||
     req.pathSegments = [".well-known", "oauth-protected-resource"] ||
     req.pathSegments = [".well-known", "oauth-authorization-server"])

/-- Dispatch of one inbound request through the Express application: the MCP
route runs its middleware chain; the static routes answer themselves; any
other request falls through to Express's default 404. -/
def dispatch (config : Config) (mapper : Mapper) (env : AuthEnv)
    (req : HttpRequest) : Outcome × CallTrace :=
  match matchMcpRoute req with
  | some organizationId =>
    mcpPipeline config mapper env organizationId req.authorizationHeader
  | none =>
    if matchOtherRoute req then (.otherRoute, { verifyCalls := 0, membershipCalls := 0 })
    else (.expressDefault404, { verifyCalls := 0, membershipCalls := 0 })

end Gateway

namespace Gateway

/-! ## Theorems: OrganizationResolver lookup behaviour -/

/-- C6: for an organization id absent from the mapping table the permissive
`getPartition` returns the lowercased id and the strict `getPartition` fails
with `OrganizationNotFound`; for an id present in the table both policies
return the entry's partition unchanged. -/
theorem getPartition_policy (cfg : MapperConfig) (tbl : MappingTable) (orgId : String) :
    (tbl.lookup orgId = none →
      DefaultMapper.getPartition ⟨cfg, tbl⟩ orgId = jsToLowerCase orgId ∧
      StrictMapper.getPartition ⟨cfg, tbl⟩ orgId =
        .error (.organizationNotFound orgId)) ∧
    (∀ e, tbl.lookup orgId = some e →
      DefaultMapper.getPartition ⟨cfg, tbl⟩ orgId = e.partition ∧
      StrictMapper.getPartition ⟨cfg, tbl⟩ orgId = .ok e.partition) := by
  refine ⟨fun h => ?_, fun e h => ?_⟩ <;>
    simp [DefaultMapper.getPartition, StrictMapper.getPartition, h]

/-- Witness for `getPartition_policy` at the table of the end-to-end example:
miss on `org_2`, hit on `org_1`. -/
theorem getPartition_policy_witness :
    (DefaultMapper.getPartition ⟨⟨"dk", false⟩, [("org_1", ⟨"p1", some "k1"⟩)]⟩ "ORG_2"
        = "org_2" ∧
      StrictMapper.getPartition ⟨⟨"dk", false⟩, [("org_1", ⟨"p1", some "k1"⟩)]⟩ "ORG_2"
        = .error (.organizationNotFound "ORG_2")) ∧
    (DefaultMapper.getPartition ⟨⟨"dk", false⟩, [("org_1", ⟨"p1", some "k1"⟩)]⟩ "org_1"
        = "p1" ∧
      StrictMapper.getPartition ⟨⟨"dk", false⟩, [("org_1", ⟨"p1", some "k1"⟩)]⟩ "org_1"
        = .ok "p1") := by
  refine ⟨?_, ?_⟩
  · have h := (getPartition_policy ⟨"dk", false⟩ [("org_1", ⟨"p1", some "k1"⟩)] "ORG_2").1
      (by decide)
    exact ⟨h.1.trans (by decide), h.2⟩
  · exact (getPartition_policy ⟨"dk", false⟩ [("org_1", ⟨"p1", some "k1"⟩)] "org_1").2
      ⟨"p1", some "k1"⟩ (by decide)

/-- C7 counterexample: an entry whose `apiKey` field is present but equal to
the empty string. Under `RequireExplicit` (`strictApiKeys = true`) the
JavaScript truthiness test `!entry.apiKey` treats `""` as missing, so
`getApiKey` throws `MissingApiKey` instead of returning the stored
credential. -/
theorem getApiKey_empty_string_counterexample :
    DefaultMapper.getApiKey ⟨⟨"default_key", true⟩, [("org_1", ⟨"p1", some ""⟩)]⟩ "org_1"
      = .error (.missingApiKey "org_1") ∧
    DefaultMapper.getApiKey ⟨⟨"default_key", true⟩, [("org_1", ⟨"p1", some ""⟩)]⟩ "org_1"
      ≠ .ok "" := by
  decide

/-- C7 (amended): for an entry carrying a non-empty credential, `getApiKey`
returns exactly that credential under both ApiKeyPolicy settings and for
both mappers; an entry carrying the empty-string credential is returned
as-is under `AllowFallback` but fails with `MissingApiKey` under
`RequireExplicit`. -/
theorem getApiKey_stored_credential (cfg : MapperConfig) (tbl : MappingTable)
    (orgId : String) (e : MappingEntry) (k : String)
    (hl : tbl.lookup orgId = some e) (hk : e.apiKey = some k) :
    (k ≠ "" →
      DefaultMapper.getApiKey ⟨cfg, tbl⟩ orgId = .ok k ∧
      StrictMapper.getApiKey ⟨cfg, tbl⟩ orgId = .ok k) ∧
    (cfg.strictApiKeys = false →
      DefaultMapper.getApiKey ⟨cfg, tbl⟩ orgId = .ok k ∧
      StrictMapper.getApiKey ⟨cfg, tbl⟩ orgId = .ok k) ∧
    (k = "" → cfg.strictApiKeys = true →
      DefaultMapper.getApiKey ⟨cfg, tbl⟩ orgId = .error (.missingApiKey orgId) ∧
      StrictMapper.getApiKey ⟨cfg, tbl⟩ orgId = .error (.missingApiKey orgId)) := by
  refine ⟨fun hne => ?_, fun hs => ?_, fun he hs => ?_⟩ <;>
    cases hb : cfg.strictApiKeys <;>
      simp_all [DefaultMapper.getApiKey, StrictMapper.getApiKey, jsStrFalsy]

/-- Witness for `getApiKey_stored_credential`: the end-to-end mapping entry
`org_1 -> (partition p1, apiKey k1)` under `RequireExplicit`. -/
theorem getApiKey_stored_credential_witness :
    DefaultMapper.getApiKey ⟨⟨"dk", true⟩, [("org_1", ⟨"p1", some "k1"⟩)]⟩ "org_1"
      = .ok "k1" ∧
    StrictMapper.getApiKey ⟨⟨"dk", true⟩, [("org_1", ⟨"p1", some "k1"⟩)]⟩ "org_1"
      = .ok "k1" :=
  (getApiKey_stored_credential ⟨"dk", true⟩ [("org_1", ⟨"p1", some "k1"⟩)] "org_1"
    ⟨"p1", some "k1"⟩ "k1" (by decide) rfl).1 (by decide)

/-- C8: for an entry that exists but carries no credential, `getApiKey`
returns the configured default under `AllowFallback` and fails with
`MissingApiKey` under `RequireExplicit`, for both mappers. -/
theorem getApiKey_absent_credential (cfg : MapperConfig) (tbl : MappingTable)
    (orgId : String) (e : MappingEntry)
    (hl : tbl.lookup orgId = some e) (hk : e.apiKey = none) :
    (cfg.strictApiKeys = false →
      DefaultMapper.getApiKey ⟨cfg, tbl⟩ orgId = .ok cfg.ragieApiKey ∧
      StrictMapper.getApiKey ⟨cfg, tbl⟩ orgId = .ok cfg.ragieApiKey) ∧
    (cfg.strictApiKeys = true →
      DefaultMapper.getApiKey ⟨cfg, tbl⟩ orgId = .error (.missingApiKey orgId) ∧
      StrictMapper.getApiKey ⟨cfg, tbl⟩ orgId = .error (.missingApiKey orgId)) := by
  refine ⟨fun hs => ?_, fun hs => ?_⟩ <;>
    simp_all [DefaultMapper.getApiKey, StrictMapper.getApiKey, jsStrFalsy]

/-- Witness for `getApiKey_absent_credential`: a credential-less entry under
both policy settings. -/
theorem getApiKey_absent_credential_witness :
    (DefaultMapper.getApiKey ⟨⟨"dk", false⟩, [("org_1", ⟨"p1", none⟩)]⟩ "org_1"
        = .ok "dk" ∧
      StrictMapper.getApiKey ⟨⟨"dk", false⟩, [("org_1", ⟨"p1", none⟩)]⟩ "org_1"
        = .ok "dk") ∧
    (DefaultMapper.getApiKey ⟨⟨"dk", true⟩, [("org_1", ⟨"p1", none⟩)]⟩ "org_1"
        = .error (.missingApiKey "org_1") ∧
      StrictMapper.getApiKey ⟨⟨"dk", true⟩, [("org_1", ⟨"p1", none⟩)]⟩ "org_1"
        = .error (.missingApiKey "org_1")) :=
  ⟨(getApiKey_absent_credential ⟨"dk", false⟩ [("org_1", ⟨"p1", none⟩)] "org_1"
      ⟨"p1", none⟩ (by decide) rfl).1 rfl,
   (getApiKey_absent_credential ⟨"dk", true⟩ [("org_1", ⟨"p1", none⟩)] "org_1"
      ⟨"p1", none⟩ (by decide) rfl).2 rfl⟩

end Gateway


namespace Gateway

/-! ## Theorems: load-time validation -/

/-- Helper: an entry validated by the strict schema carries a credential. -/
theorem zodEntry_requireApiKey_isSome (key : String) (v : Json) (e : MappingEntry)
    (h : zodEntry true key v = .ok e) : e.apiKey.isSome := by
  cases v with
  | obj fields =>
    rcases hp : fields.lookup "partition" with _ | pv
    · simp [zodEntry, hp] at h
    · rcases hs : zodString pv with es | ps
      · simp [zodEntry, hp, hs] at h
      · rcases ha : fields.lookup "apiKey" with _ | av
        · simp [zodEntry, hp, hs, ha] at h
        · rcases hs2 : zodString av with es2 | s2
          · simp [zodEntry, hp, hs, ha, hs2] at h
          · simp only [zodEntry, hp, hs, ha, hs2, Except.ok.injEq] at h
            subst h
            simp
  | str s => simp [zodEntry] at h
  | num n => simp [zodEntry] at h
  | boolean b => simp [zodEntry] at h
  | null => simp [zodEntry] at h
  | arr elems => simp [zodEntry] at h

/-- Helper: a table validated by the strict schema has a credential on every
entry. -/
theorem zodRecord_requireApiKey_isSome (fields : List (String × Json))
    (tbl : MappingTable) (h : zodRecord true fields = .ok tbl) :
    ∀ p ∈ tbl, p.2.apiKey.isSome := by
  induction fields generalizing tbl with
  | nil =>
    simp only [zodRecord, Except.ok.injEq] at h
    subst h
    simp
  | cons kv rest ih =>
    obtain ⟨key, v⟩ := kv
    rcases hz : zodEntry true key v with e0 | entry
    · simp [zodRecord, hz] at h
    · rcases hr : zodRecord true rest with e1 | tail
      · simp [zodRecord, hz, hr] at h
      · simp only [zodRecord, hz, hr, Except.ok.injEq] at h
        subst h
        intro p hp
        rcases List.mem_cons.mp hp with rfl | hmem
        · exact zodEntry_requireApiKey_isSome key v entry hz
        · exact ih tail hr p hmem

/-- Helper: a top-level entry whose value is an object without a `partition`
field makes record validation fail, under either schema. -/
theorem zodRecord_missing_partition (b : Bool) (fields : List (String × Json))
    (key : String) (efields : List (String × Json))
    (hmem : (key, Json.obj efields) ∈ fields)
    (hp : efields.lookup "partition" = none) :
    ∃ msg, zodRecord b fields = .error msg := by
  induction fields with
  | nil => cases hmem
  | cons kv rest ih =>
    obtain ⟨k0, v0⟩ := kv
    rcases List.mem_cons.mp hmem with heq | hmem'
    · injection heq with h1 h2
      subst h1
      subst h2
      have he : zodEntry b key (.obj efields)
          = .error (key ++ ".partition: Required") := by
        simp [zodEntry, hp]
      exact ⟨key ++ ".partition: Required", by simp [zodRecord, he]⟩
    · obtain ⟨msg, hmsg⟩ := ih hmem'
      rcases hz : zodEntry b k0 v0 with e0 | entry
      · exact ⟨e0, by simp [zodRecord, hz]⟩
      · exact ⟨msg, by simp [zodRecord, hz, hmsg]⟩

/-- Helper: both `load` functions validate under the strict schema when
`strictApiKeys` is set, so every loaded entry has a credential. -/
theorem load_requireApiKey_isSome (cfgm : MapperConfig) (file : FileRead)
    (hstrict : cfgm.strictApiKeys = true) :
    (∀ dm, DefaultMapper.load cfgm file = .ok dm →
      ∀ p ∈ dm.mapping, p.2.apiKey.isSome) ∧
    (∀ sm, StrictMapper.load cfgm file = .ok sm →
      ∀ p ∈ sm.mapping, p.2.apiKey.isSome) := by
  constructor
  all_goals
    intro m hload p hp
    rcases file with e | json
    · simp [DefaultMapper.load, StrictMapper.load] at hload
    · rcases htbl : zodParseMapping cfgm.strictApiKeys json with e1 | tbl
      · simp [DefaultMapper.load, StrictMapper.load, htbl] at hload
      · simp only [DefaultMapper.load, StrictMapper.load, htbl,
          Except.ok.injEq] at hload
        subst hload
        rcases json with s | n | b | _ | elems | fields <;>
          simp only [zodParseMapping] at htbl <;>
          try exact absurd htbl (by simp)
        rw [hstrict] at htbl
        exact zodRecord_requireApiKey_isSome fields _ htbl p hp

/-- C9: mapping-table validation happens once at load time: under
`RequireExplicit` a successfully loaded mapper never holds a credential-less
entry, and a file containing an entry without the required `partition` field
makes startup fail with a validation error before any gateway exists. -/
theorem mapping_load_validation (cfg : Config) (file : FileRead) :
    (∀ m, cfg.strictApiKeys = true → loadMapper cfg file = .ok m →
      ∀ p ∈ m.table, p.2.apiKey.isSome) ∧
    (∀ fields key efields, file = .ok (.obj fields) →
      (key, Json.obj efields) ∈ fields →
      efields.lookup "partition" = none →
      cfg.mappingFile ≠ none →
      ∃ msg, mainStartup cfg file = .error (.validationError msg)) := by
  constructor
  · intro m hstrict hload p hp
    have hmc : cfg.mapperConfig.strictApiKeys = true := by
      simp [Config.mapperConfig, hstrict]
    unfold loadMapper at hload
    split at hload
    · rcases hmf : cfg.mappingFile with _ | f
      · rw [hmf] at hload
        simp at hload
      · rw [hmf] at hload
        rcases hsl : StrictMapper.load cfg.mapperConfig file with e | sm
        · rw [hsl] at hload
          simp [Except.map] at hload
        · rw [hsl] at hload
          simp only [Except.map, Except.ok.injEq] at hload
          subst hload
          exact (load_requireApiKey_isSome cfg.mapperConfig file hmc).2 sm hsl p hp
    · rcases hmf : cfg.mappingFile with _ | f
      · rw [hmf] at hload
        simp only [Except.ok.injEq] at hload
        subst hload
        simp [Mapper.table] at hp
      · rw [hmf] at hload
        rcases hdl : DefaultMapper.load cfg.mapperConfig file with e | dm
        · rw [hdl] at hload
          simp [Except.map] at hload
        · rw [hdl] at hload
          simp only [Except.map, Except.ok.injEq] at hload
          subst hload
          exact (load_requireApiKey_isSome cfg.mapperConfig file hmc).1 dm hdl p hp
  · intro fields key efields hfile hmem hpart hmf
    obtain ⟨msg, hmsg⟩ :=
      zodRecord_missing_partition cfg.mapperConfig.strictApiKeys fields key efields
        hmem hpart
    have hparse : zodParseMapping cfg.mapperConfig.strictApiKeys (.obj fields)
        = .error msg := by
      simpa [zodParseMapping] using hmsg
    rcases hmfv : cfg.mappingFile with _ | f
    · exact absurd hmfv hmf
    · refine ⟨msg, ?_⟩
      have hload : loadMapper cfg file = .error (.validationError msg) := by
        unfold loadMapper
        split
        · rw [hmfv]
          simp [StrictMapper.load, hfile, hparse, Except.map]
        · rw [hmfv]
          simp [DefaultMapper.load, hfile, hparse, Except.map]
      simp [mainStartup, hload]

/-- Witness for `mapping_load_validation`: a well-formed strict load keeps a
credential on every entry, and a file whose sole entry lacks `partition`
aborts startup with a validation error. -/
theorem mapping_load_validation_witness :
    (MappingEntry.mk "p1" (some "k1")).apiKey.isSome ∧
    (∃ msg,
      mainStartup
        ⟨"http://localhost:3000", "dk", "https://api.ragie.ai/", true, true,
          some "mapping.json"⟩
        (.ok (.obj [("org_1", .obj [("apiKey", .str "k1")])]))
        = .error (.validationError msg)) := by
  constructor
  · exact (mapping_load_validation
      ⟨"http://localhost:3000", "dk", "https://api.ragie.ai/", true, true,
        some "mapping.json"⟩
      (.ok (.obj [("org_1", .obj [("partition", .str "p1"),
        ("apiKey", .str "k1")])]))).1
      (Mapper.strictM ⟨⟨"dk", true⟩, [("org_1", ⟨"p1", some "k1"⟩)]⟩)
      rfl rfl ("org_1", MappingEntry.mk "p1" (some "k1")) (by decide)
  · exact (mapping_load_validation
      ⟨"http://localhost:3000", "dk", "https://api.ragie.ai/", true, true,
        some "mapping.json"⟩
      (.ok (.obj [("org_1", .obj [("apiKey", .str "k1")])]))).2
      [("org_1", .obj [("apiKey", .str "k1")])] "org_1"
      [("apiKey", .str "k1")] rfl (by simp) rfl (by simp)

end Gateway


namespace Gateway

/-! ## Theorems: per-request pipeline -/

/-- Helper: inversion of `matchMcpRoute`: a matched request is a `POST` whose
path is exactly `/orgId/mcp` with a nonempty organization id. -/
theorem matchMcpRoute_inversion (req : HttpRequest) (orgId : String)
    (h : matchMcpRoute req = some orgId) :
    req.method = "POST" ∧ req.pathSegments = [orgId, "mcp"] ∧ orgId ≠ "" := by
  unfold matchMcpRoute at h
  by_cases hm : req.method = "POST"
  · rw [if_pos hm] at h
    rcases hseg : req.pathSegments with _ | ⟨a, _ | ⟨b, _ | ⟨c, tl⟩⟩⟩
    · rw [hseg] at h
      exact absurd h (by simp)
    · rw [hseg] at h
      exact absurd h (by simp)
    · rw [hseg] at h
      simp only at h
      split at h
      · next hcond =>
        cases h
        simp only [Bool.and_eq_true, decide_eq_true_eq] at hcond
        exact ⟨hm, by rw [hcond.1], hcond.2⟩
      · exact absurd h (by simp)
    · rw [hseg] at h
      exact absurd h (by simp)
  · rw [if_neg hm] at h
    exact absurd h (by simp)

/-- Helper: inversion of a successful bearer-token extraction: the header is
exactly the `Bearer ` prefix followed by the nonempty,
line-terminator-free token. -/
theorem extractBearerToken_some (header tok : String)
    (h : extractBearerToken (some header) = some tok) :
    header.data = bearerMarker ++ tok.data ∧ tok.data ≠ [] ∧
      tok.data.all jsRegexDotChar := by
  simp only [extractBearerToken] at h
  by_cases hpre : bearerMarker.isPrefixOf header.data
  · rw [if_pos hpre] at h
    obtain ⟨t, ht⟩ := List.isPrefixOf_iff_prefix.mp hpre
    have hdrop : header.data.drop bearerMarker.length = t := by
      rw [← ht]
      exact List.drop_left _ _
    rw [hdrop] at h
    by_cases hemp : t.isEmpty
    · rw [if_pos hemp] at h
      exact absurd h (by simp)
    · rw [if_neg hemp] at h
      by_cases hall : t.all jsRegexDotChar
      · rw [if_pos hall] at h
        have htok : tok = String.mk t := by
          cases h
          rfl
        subst htok
        refine ⟨ht.symm, ?_, hall⟩
        intro hnil
        have hnil2 : t = [] := hnil
        exact hemp (by simp [hnil2])
      · rw [if_neg hall] at h
        exact absurd h (by simp)
  · rw [if_neg hpre] at h
    exact absurd h (by simp)

/-- Helper: inversion of a forwarded request: forwarding can only come out of
the proxy step, with both mapper calls succeeding, the path rewritten to
`/mcp/<partition>/` and the `Authorization` header overwritten with
`Bearer <apiKey>`. -/
theorem forward_inversion (config : Config) (m : Mapper) (env : AuthEnv)
    (req : HttpRequest) (orgId : String) (u : UpstreamRequest)
    (hroute : matchMcpRoute req = some orgId)
    (hfwd : (dispatch config m env req).1 = .forward u) :
    ∃ partition apiKey, m.getPartition orgId = .ok partition ∧
      m.getApiKey orgId = .ok apiKey ∧
      u = { path := "/mcp/" ++ partition ++ "/",
            authorizationHeader := "Bearer " ++ apiKey } := by
  have hpipe : (mcpPipeline config m env orgId req.authorizationHeader).1
      = .forward u := by
    simpa only [dispatch, hroute] using hfwd
  rcases hgate : ensureMapping m orgId with _ | r
  · simp only [mcpPipeline, hgate] at hpipe
    rcases hext : extractBearerToken req.authorizationHeader with _ | tok
    · simp only [bearerTokenAndProxy, hext] at hpipe
      exact absurd hpipe (by simp)
    · simp only [bearerTokenAndProxy, hext] at hpipe
      rcases hver : env.verify tok with _ | payload
      · simp only [hver] at hpipe
        exact absurd hpipe (by simp)
      · simp only [hver] at hpipe
        rcases hsub : payload.sub with _ | userId
        · simp only [hsub] at hpipe
          exact absurd hpipe (by simp)
        · simp only [hsub] at hpipe
          by_cases hnz : userId = ""
          · rw [if_pos hnz] at hpipe
            exact absurd hpipe (by simp)
          · rw [if_neg hnz] at hpipe
            by_cases hmem : env.memberships userId orgId = 0
            · rw [if_pos hmem] at hpipe
              exact absurd hpipe (by simp)
            · rw [if_neg hmem] at hpipe
              rcases hp : m.getPartition orgId with e | partition
              · simp only [proxyStep, hp] at hpipe
                exact absurd hpipe (by simp)
              · simp only [proxyStep, hp] at hpipe
                rcases hk : m.getApiKey orgId with e | apiKey
                · simp only [hk] at hpipe
                  exact absurd hpipe (by simp)
                · simp only [hk, Outcome.forward.injEq] at hpipe
                  exact ⟨partition, apiKey, rfl, rfl, hpipe.symm⟩
  · simp only [mcpPipeline, hgate] at hpipe
    exact absurd hpipe (by simp)

/-- C1: a request dispatched to the `/:organizationId/mcp` route whose
organization has no mapping is answered 404
`( error : Organization not found )` by the mapping-presence gate, with zero
calls to the signing-key (`jwtVerify`) and membership collaborators: the
gate runs before the authentication middleware and short-circuits it. -/
theorem mapping_gate_before_auth (config : Config) (m : Mapper) (env : AuthEnv)
    (req : HttpRequest) (orgId : String)
    (hroute : matchMcpRoute req = some orgId)
    (hmap : m.hasMapping orgId = false) :
    dispatch config m env req =
      (.response { status := 404, wwwAuthenticate := none,
                   errorMessage := "Organization not found" },
       { verifyCalls := 0, membershipCalls := 0 }) := by
  simp [dispatch, hroute, mcpPipeline, ensureMapping, hmap]

/-- Witness for `mapping_gate_before_auth`: a strict mapper whose table only
maps `org_1`, receiving a `POST /org_2/mcp` with a bearer header; the
verifier and membership collaborators would accept everything, yet are never
consulted. -/
theorem mapping_gate_before_auth_witness :
    dispatch
      ⟨"http://localhost:3000", "dk", "https://api.ragie.ai/", false, true,
        some "mapping.json"⟩
      (Mapper.strictM ⟨⟨"dk", false⟩, [("org_1", ⟨"p1", some "k1"⟩)]⟩)
      ⟨fun _ => some ⟨some "user_1"⟩, fun _ _ => 1⟩
      ⟨"POST", ["org_2", "mcp"], some "Bearer good"⟩ =
      (.response { status := 404, wwwAuthenticate := none,
                   errorMessage := "Organization not found" },
       { verifyCalls := 0, membershipCalls := 0 }) :=
  mapping_gate_before_auth _ _ _ _ "org_2" rfl rfl

/-- C2: every forwarded request carries an `Authorization` header equal to
`Bearer <apiKey>` with `<apiKey>` the mapper's credential for the path's
organization — regardless of the inbound bearer token: two forwarded
requests for the same organization, under arbitrary (even different)
verifier behaviour and tokens, carry the identical upstream credential. -/
theorem forwarded_credential_substitution (config : Config) (m : Mapper)
    (env env2 : AuthEnv) (req req2 : HttpRequest) (orgId : String)
    (u u2 : UpstreamRequest)
    (h1 : matchMcpRoute req = some orgId)
    (h2 : matchMcpRoute req2 = some orgId)
    (hf1 : (dispatch config m env req).1 = .forward u)
    (hf2 : (dispatch config m env2 req2).1 = .forward u2) :
    (∃ apiKey, m.getApiKey orgId = .ok apiKey ∧
      u.authorizationHeader = "Bearer " ++ apiKey) ∧
    u.authorizationHeader = u2.authorizationHeader := by
  obtain ⟨p1, k1, hp1, hk1, hu1⟩ :=
    forward_inversion config m env req orgId u h1 hf1
  obtain ⟨p2, k2, hp2, hk2, hu2⟩ :=
    forward_inversion config m env2 req2 orgId u2 h2 hf2
  have hk : k1 = k2 := by
    rw [hk1] at hk2
    exact Except.ok.inj hk2
  subst hu1
  subst hu2
  exact ⟨⟨k1, hk1, rfl⟩, by rw [hk]⟩

/-- Witness for `forwarded_credential_substitution`: two requests to `org_1`
with different valid tokens for different users, both forwarded; the
upstream credential is `Bearer k1` both times. -/
theorem forwarded_credential_substitution_witness :
    (∃ apiKey,
      (Mapper.strictM
        ⟨⟨"dk", false⟩, [("org_1", ⟨"p1", some "k1"⟩)]⟩).getApiKey "org_1"
        = .ok apiKey ∧
      (UpstreamRequest.mk "/mcp/p1/" "Bearer k1").authorizationHeader
        = "Bearer " ++ apiKey) ∧
    (UpstreamRequest.mk "/mcp/p1/" "Bearer k1").authorizationHeader
      = (UpstreamRequest.mk "/mcp/p1/" "Bearer k1").authorizationHeader :=
  forwarded_credential_substitution
    ⟨"http://localhost:3000", "dk", "https://api.ragie.ai/", false, true,
      some "mapping.json"⟩
    (Mapper.strictM ⟨⟨"dk", false⟩, [("org_1", ⟨"p1", some "k1"⟩)]⟩)
    ⟨fun t => if t = "alice_token" then some ⟨some "user_alice"⟩ else none,
      fun _ _ => 1⟩
    ⟨fun t => if t = "bob_token" then some ⟨some "user_bob"⟩ else none,
      fun _ _ => 1⟩
    ⟨"POST", ["org_1", "mcp"], some "Bearer alice_token"⟩
    ⟨"POST", ["org_1", "mcp"], some "Bearer bob_token"⟩
    "org_1"
    (UpstreamRequest.mk "/mcp/p1/" "Bearer k1")
    (UpstreamRequest.mk "/mcp/p1/" "Bearer k1")
    rfl rfl (by decide) (by decide)

/-- C5: a verified token with a truthy (nonempty) subject — the only way the
membership query is reached past `assert(userId, ...)` — whose subject has
no active membership in the path's organization halts the pipeline at the
membership check with a 401: the membership collaborator is consulted
exactly once, the proxy never runs and nothing is forwarded; conversely a
forwarded request implies a nonempty membership result. -/
theorem membership_denied_halts (config : Config) (m : Mapper) (env : AuthEnv)
    (req : HttpRequest) (orgId tok : String) (payload : JwtPayload)
    (userId : String)
    (hroute : matchMcpRoute req = some orgId)
    (hmap : m.hasMapping orgId = true)
    (htok : extractBearerToken req.authorizationHeader = some tok)
    (hver : env.verify tok = some payload)
    (hsub : payload.sub = some userId)
    (hnz : userId ≠ "") :
    (env.memberships userId orgId = 0 →
      dispatch config m env req =
        (.response (LocalResponse.mk 401 (some (wwwAuthenticateHeader config))
            "Invalid bearer token."),
         CallTrace.mk 1 1)) ∧
    (∀ up : UpstreamRequest, (dispatch config m env req).1 = .forward up →
      env.memberships userId orgId ≠ 0) := by
  constructor
  · intro hmem
    simp [dispatch, hroute, mcpPipeline, ensureMapping, hmap,
      bearerTokenAndProxy, htok, hver, hsub, hnz, hmem]
  · intro up hfwd hmem
    rw [show dispatch config m env req =
        (.response (LocalResponse.mk 401 (some (wwwAuthenticateHeader config))
            "Invalid bearer token."),
         CallTrace.mk 1 1) from by
      simp [dispatch, hroute, mcpPipeline, ensureMapping, hmap,
        bearerTokenAndProxy, htok, hver, hsub, hnz, hmem]] at hfwd
    exact absurd hfwd (by simp)

/-- Witness for `membership_denied_halts`: a valid token for `user_1`, but
the membership query for (`user_1`, `org_1`) returns an empty list; the
request is answered 401 after one verify call and one membership call. -/
theorem membership_denied_halts_witness :
    dispatch
      ⟨"http://localhost:3000", "dk", "https://api.ragie.ai/", false, false,
        none⟩
      (Mapper.defaultM ⟨⟨"dk", false⟩, []⟩)
      ⟨fun t => if t = "good" then some ⟨some "user_1"⟩ else none,
        fun _ _ => 0⟩
      ⟨"POST", ["org_1", "mcp"], some "Bearer good"⟩ =
      (.response (LocalResponse.mk 401
          (some (wwwAuthenticateHeader
            ⟨"http://localhost:3000", "dk", "https://api.ragie.ai/", false,
              false, none⟩))
          "Invalid bearer token."),
       CallTrace.mk 1 1) :=
  (membership_denied_halts
    ⟨"http://localhost:3000", "dk", "https://api.ragie.ai/", false, false,
      none⟩
    (Mapper.defaultM ⟨⟨"dk", false⟩, []⟩)
    ⟨fun t => if t = "good" then some ⟨some "user_1"⟩ else none,
      fun _ _ => 0⟩
    ⟨"POST", ["org_1", "mcp"], some "Bearer good"⟩
    "org_1" "good" ⟨some "user_1"⟩ "user_1"
    rfl rfl (by decide) (by decide) rfl (by decide)).1 rfl

/-- C10: token extraction accepts exactly the headers of shape
`Bearer <token>` (case-sensitive prefix, one space, nonempty remainder free
of line terminators, per the regex `Bearer (.+)` anchored at both ends);
any present header deviating from that shape is answered 401
`( error : No token provided. )` with zero collaborator calls. -/
theorem bearer_extraction_no_token (config : Config) (m : Mapper)
    (env : AuthEnv) (req : HttpRequest) (orgId : String) (header : String)
    (hroute : matchMcpRoute req = some orgId)
    (hmap : m.hasMapping orgId = true)
    (hauth : req.authorizationHeader = some header)
    (hdev : ¬ ∃ t : List Char,
      header.data = bearerMarker ++ t ∧ t ≠ [] ∧ t.all jsRegexDotChar) :
    dispatch config m env req =
      (.response (LocalResponse.mk 401 (some (wwwAuthenticateHeader config))
          "No token provided."),
       CallTrace.mk 0 0) := by
  have hext : extractBearerToken req.authorizationHeader = none := by
    rw [hauth]
    rcases hx : extractBearerToken (some header) with _ | tok
    · rfl
    · obtain ⟨hd, hne, hall⟩ := extractBearerToken_some header tok hx
      exact absurd ⟨tok.data, hd, hne, hall⟩ hdev
  simp [dispatch, hroute, mcpPipeline, ensureMapping, hmap,
    bearerTokenAndProxy, hext]

/-- Witness for `bearer_extraction_no_token`: the header `Bearer ` (correct
scheme, empty token) deviates from the accepted shape and is answered 401
with no collaborator calls. -/
theorem bearer_extraction_no_token_witness :
    dispatch
      ⟨"http://localhost:3000", "dk", "https://api.ragie.ai/", false, false,
        none⟩
      (Mapper.defaultM ⟨⟨"dk", false⟩, []⟩)
      ⟨fun _ => some ⟨some "user_1"⟩, fun _ _ => 1⟩
      ⟨"POST", ["org_1", "mcp"], some "Bearer "⟩ =
      (.response (LocalResponse.mk 401
          (some (wwwAuthenticateHeader
            ⟨"http://localhost:3000", "dk", "https://api.ragie.ai/", false,
              false, none⟩))
          "No token provided."),
       CallTrace.mk 0 0) :=
  bearer_extraction_no_token _ _ _ _ "org_1" "Bearer " rfl rfl rfl
    (by
      rintro ⟨t, ht, hne, -⟩
      have ht2 : bearerMarker = bearerMarker ++ t := ht
      have : t = [] := by simpa [bearerMarker] using ht2.symm
      exact hne this)

/-- C3 counterexample: with mapping `org_1 -> (p1, k1)` and a valid member
token, a `POST /org_1/mcp/tool` does not match the
`/:organizationId/mcp` route at all (Express's default 404, no upstream
call, no collaborator call), instead of being proxied to `/mcp/p1/tool`;
and the request that does match, `POST /org_1/mcp`, is proxied to
`/mcp/p1/` — the remainder never appears in the rewritten path. -/
theorem route_remainder_counterexample :
    dispatch
      ⟨"http://localhost:3000", "dk", "https://api.ragie.ai/", false, true,
        some "mapping.json"⟩
      (Mapper.strictM ⟨⟨"dk", false⟩, [("org_1", ⟨"p1", some "k1"⟩)]⟩)
      ⟨fun t => if t = "good" then some ⟨some "user_1"⟩ else none,
        fun _ _ => 1⟩
      ⟨"POST", ["org_1", "mcp", "tool"], some "Bearer good"⟩
      = (.expressDefault404, CallTrace.mk 0 0) ∧
    dispatch
      ⟨"http://localhost:3000", "dk", "https://api.ragie.ai/", false, true,
        some "mapping.json"⟩
      (Mapper.strictM ⟨⟨"dk", false⟩, [("org_1", ⟨"p1", some "k1"⟩)]⟩)
      ⟨fun t => if t = "good" then some ⟨some "user_1"⟩ else none,
        fun _ _ => 1⟩
      ⟨"POST", ["org_1", "mcp"], some "Bearer good"⟩
      = (.forward (UpstreamRequest.mk "/mcp/p1/" "Bearer k1"),
         CallTrace.mk 1 1) := by
  constructor
  · decide
  · decide

/-- C3 (amended): the MCP route accepts only `POST` requests whose path is
exactly `/organizationId/mcp` (no remainder); every forwarded request has
its upstream path rewritten to `/mcp/<partition>/` with
`<partition> = getPartition(organizationId)` and no remainder component. -/
theorem mcp_route_exact_rewrite (config : Config) (m : Mapper) (env : AuthEnv)
    (req : HttpRequest) (orgId : String) (u : UpstreamRequest)
    (hroute : matchMcpRoute req = some orgId)
    (hfwd : (dispatch config m env req).1 = .forward u) :
    req.method = "POST" ∧ req.pathSegments = [orgId, "mcp"] ∧
    ∃ partition, m.getPartition orgId = .ok partition ∧
      u.path = "/mcp/" ++ partition ++ "/" := by
  obtain ⟨hm, hseg, -⟩ := matchMcpRoute_inversion req orgId hroute
  obtain ⟨partition, apiKey, hp, hk, hu⟩ :=
    forward_inversion config m env req orgId u hroute hfwd
  subst hu
  exact ⟨hm, hseg, partition, hp, rfl⟩

/-- Witness for `mcp_route_exact_rewrite`: the end-to-end mapping, an
authenticated `POST /org_1/mcp`, forwarded with upstream path `/mcp/p1/`. -/
theorem mcp_route_exact_rewrite_witness :
    (HttpRequest.mk "POST" ["org_1", "mcp"] (some "Bearer good")).method
        = "POST" ∧
    (HttpRequest.mk "POST" ["org_1", "mcp"]
        (some "Bearer good")).pathSegments = ["org_1", "mcp"] ∧
    ∃ partition,
      (Mapper.strictM
        ⟨⟨"dk", false⟩, [("org_1", ⟨"p1", some "k1"⟩)]⟩).getPartition "org_1"
        = .ok partition ∧
      (UpstreamRequest.mk "/mcp/p1/" "Bearer k1").path
        = "/mcp/" ++ partition ++ "/" :=
  mcp_route_exact_rewrite
    ⟨"http://localhost:3000", "dk", "https://api.ragie.ai/", false, true,
      some "mapping.json"⟩
    (Mapper.strictM ⟨⟨"dk", false⟩, [("org_1", ⟨"p1", some "k1"⟩)]⟩)
    ⟨fun t => if t = "good" then some ⟨some "user_1"⟩ else none,
      fun _ _ => 1⟩
    (HttpRequest.mk "POST" ["org_1", "mcp"] (some "Bearer good"))
    "org_1" (UpstreamRequest.mk "/mcp/p1/" "Bearer k1")
    rfl (by decide)

/-- C4 counterexample: a token that verifies but carries a JavaScript-falsy
`sub` claim does not produce the uniform 401: with `sub` absent
(`undefined`) — and likewise with `sub = ""`, also falsy — the uncaught
`assert(userId, ...)` fires after one verify call, no membership query is
made, and no 401 response with the challenge header is sent. -/
theorem missing_subject_counterexample :
    dispatch
      ⟨"http://localhost:3000", "dk", "https://api.ragie.ai/", false, false,
        none⟩
      (Mapper.defaultM ⟨⟨"dk", false⟩, []⟩)
      ⟨fun t => if t = "tok_no_sub" then some ⟨none⟩ else none, fun _ _ => 1⟩
      ⟨"POST", ["org_1", "mcp"], some "Bearer tok_no_sub"⟩
      = (.assertionFailure "User ID is required in the JWT payload",
         CallTrace.mk 1 0) ∧
    (dispatch
      ⟨"http://localhost:3000", "dk", "https://api.ragie.ai/", false, false,
        none⟩
      (Mapper.defaultM ⟨⟨"dk", false⟩, []⟩)
      ⟨fun t => if t = "tok_no_sub" then some ⟨none⟩ else none, fun _ _ => 1⟩
      ⟨"POST", ["org_1", "mcp"], some "Bearer tok_no_sub"⟩).1
      ≠ .response (LocalResponse.mk 401
          (some (wwwAuthenticateHeader
            ⟨"http://localhost:3000", "dk", "https://api.ragie.ai/", false,
              false, none⟩))
          "Invalid bearer token.") ∧
    dispatch
      ⟨"http://localhost:3000", "dk", "https://api.ragie.ai/", false, false,
        none⟩
      (Mapper.defaultM ⟨⟨"dk", false⟩, []⟩)
      ⟨fun t => if t = "tok_empty_sub" then some ⟨some ""⟩ else none,
        fun _ _ => 0⟩
      ⟨"POST", ["org_1", "mcp"], some "Bearer tok_empty_sub"⟩
      = (.assertionFailure "User ID is required in the JWT payload",
         CallTrace.mk 1 0) := by
  refine ⟨?_, ?_, ?_⟩
  · decide
  · decide
  · decide

/-- C4 (amended): the three per-request authentication failures produced by
the middleware — missing/malformed bearer token, `jwtVerify` rejection, and
empty membership for a truthy subject — are answered uniformly with HTTP
401, the exact `WWW-Authenticate` challenge
`Bearer error="unauthorized", error_description="Authorization needed",
resource_metadata="<baseUrl>/.well-known/oauth-protected-resource"`, and a
JSON body `( error : message )`; a verified token whose subject claim is
JavaScript-falsy — absent or the empty string — is excluded: it trips the
uncaught `assert(userId, ...)` instead (see the counterexample). -/
theorem auth_failure_uniform_response (config : Config) (m : Mapper)
    (env : AuthEnv) (req : HttpRequest) (orgId : String)
    (hroute : matchMcpRoute req = some orgId)
    (hmap : m.hasMapping orgId = true)
    (hfail :
      extractBearerToken req.authorizationHeader = none ∨
      (∃ tok, extractBearerToken req.authorizationHeader = some tok ∧
        env.verify tok = none) ∨
      (∃ tok payload userId,
        extractBearerToken req.authorizationHeader = some tok ∧
        env.verify tok = some payload ∧ payload.sub = some userId ∧
        userId ≠ "" ∧ env.memberships userId orgId = 0)) :
    ∃ msg, (dispatch config m env req).1 =
      .response (LocalResponse.mk 401
        (some ("Bearer error=\"unauthorized\", error_description=\"Authorization needed\", resource_metadata=\""
          ++ config.baseUrl ++ "/.well-known/oauth-protected-resource\""))
        msg) := by
  have hw : wwwAuthenticateHeader config =
      "Bearer error=\"unauthorized\", error_description=\"Authorization needed\", resource_metadata=\""
        ++ config.baseUrl ++ "/.well-known/oauth-protected-resource\"" := rfl
  rcases hfail with hnone | ⟨tok, htok, hver⟩ |
    ⟨tok, payload, userId, htok, hver, hsub, hnz, hmem⟩
  · refine ⟨"No token provided.", ?_⟩
    rw [← hw]
    simp [dispatch, hroute, mcpPipeline, ensureMapping, hmap,
      bearerTokenAndProxy, hnone]
  · refine ⟨"Invalid bearer token.", ?_⟩
    rw [← hw]
    simp [dispatch, hroute, mcpPipeline, ensureMapping, hmap,
      bearerTokenAndProxy, htok, hver]
  · refine ⟨"Invalid bearer token.", ?_⟩
    rw [← hw]
    simp [dispatch, hroute, mcpPipeline, ensureMapping, hmap,
      bearerTokenAndProxy, htok, hver, hsub, hnz, hmem]

/-- Witness for `auth_failure_uniform_response`: a request with no
`Authorization` header at all, answered 401 with the exact challenge header
carrying this gateway's own oauth-protected-resource URL. -/
theorem auth_failure_uniform_response_witness :
    ∃ msg,
      (dispatch
        ⟨"http://localhost:3000", "dk", "https://api.ragie.ai/", false, false,
          none⟩
        (Mapper.defaultM ⟨⟨"dk", false⟩, []⟩)
        ⟨fun _ => some ⟨some "user_1"⟩, fun _ _ => 1⟩
        ⟨"POST", ["org_1", "mcp"], none⟩).1 =
      .response (LocalResponse.mk 401
        (some ("Bearer error=\"unauthorized\", error_description=\"Authorization needed\", resource_metadata=\""
          ++ "http://localhost:3000" ++ "/.well-known/oauth-protected-resource\""))
        msg) :=
  auth_failure_uniform_response
    ⟨"http://localhost:3000", "dk", "https://api.ragie.ai/", false, false,
      none⟩
    (Mapper.defaultM ⟨⟨"dk", false⟩, []⟩)
    ⟨fun _ => some ⟨some "user_1"⟩, fun _ _ => 1⟩
    ⟨"POST", ["org_1", "mcp"], none⟩
    "org_1" rfl rfl (Or.inl rfl)

end Gateway
